import Mathlib

/-!
Verification of the streaming speech-recognition client in `bing-rs`.

The definitions below are a shallow embedding of the Rust sources:
`src/speech/websocket.rs` (frame codec, session state, dispatch),
`src/speech/mod.rs` (phrase discrimination, URL construction, event loops).
Rust panics (index out of bounds, `unwrap` on `None`/`Err`) are modelled by
`Option.none` at the outermost layer; recoverable `Result` errors by `Except`.
JSON decoding (serde_json) is an external collaborator: parsed JSON values are
modelled by the `Json` inductive, and the string-to-`Json` parser is an
abstract parameter of the functions that consume it.
-/

namespace BingRs

/-- Model of a decoded `serde_json::Value`: numbers are modelled as `Int`
(no floating-point arithmetic is performed on them anywhere in the client). -/
inductive Json where
  | null : Json
  | bool (b : Bool) : Json
  | num (n : Int) : Json
  | str (s : String) : Json
  | arr (xs : List Json) : Json
  | obj (fields : List (String × Json)) : Json

/-- `Value::as_object` : `Some` exactly on JSON objects. -/
def Json.asObject : Json → Option (List (String × Json))
  | .obj fields => some fields
  | _ => none

/-- `Value::as_str` : `Some` exactly on JSON strings. -/
def Json.asStr : Json → Option String
  | .str s => some s
  | _ => none

/-- Field lookup in a JSON object (serde_json maps have unique keys). -/
def jsonLookup (fields : List (String × Json)) (key : String) : Option Json :=
  match fields.find? (fun kv => kv.1 == key) with
  | some kv => some kv.2
  | none => none

/-- `Map::contains_key`. -/
def jsonContainsKey (fields : List (String × Json)) (key : String) : Bool :=
  (jsonLookup fields key).isSome

/-- `SimplePhrase` (src/speech/mod.rs): RecognitionStatus, DisplayText,
Offset, Duration. -/
structure SimplePhrase where
  recognition_status : String
  display_text : String
  offset : Int
  duration : Int
deriving DecidableEq, Repr

/-- `DetailedPhraseItem` (src/speech/mod.rs): one NBest entry. -/
structure DetailedPhraseItem where
  confidence : Int
  lexical : String
  itn : String
  masked_itn : String
  display : String
deriving DecidableEq, Repr

/-- `DetailedPhrase` (src/speech/mod.rs). -/
structure DetailedPhrase where
  recognition_status : String
  offset : Int
  duration : Int
  nbest : List DetailedPhraseItem
deriving DecidableEq, Repr

/-- `SilencePhrase` (src/speech/mod.rs). -/
structure SilencePhrase where
  recognition_status : String
  offset : Int
  duration : Int
deriving DecidableEq, Repr

/-- `Hypothesis` (src/speech/mod.rs): Text, Offset, Duration. -/
structure Hypothesis where
  text : String
  offset : Int
  duration : Int
deriving DecidableEq, Repr

/-- `Phrase` (src/speech/mod.rs). -/
inductive Phrase where
  | Simple (p : SimplePhrase)
  | Detailed (p : DetailedPhrase)
  | Silence (p : SilencePhrase)
  | Unknown
deriving DecidableEq, Repr

/-- serde deserialization of `SimplePhrase` from a JSON value: every field
must be present with the right type; extra fields are ignored. -/
def SimplePhrase.fromJson (v : Json) : Option SimplePhrase :=
  match v.asObject with
  | none => none
  | some o =>
    match jsonLookup o "RecognitionStatus", jsonLookup o "DisplayText",
          jsonLookup o "Offset", jsonLookup o "Duration" with
    | some (.str rs), some (.str dt), some (.num off), some (.num dur) =>
        some ⟨rs, dt, off, dur⟩
    | _, _, _, _ => none

/-- serde deserialization of one `DetailedPhraseItem`. -/
def DetailedPhraseItem.fromJson (v : Json) : Option DetailedPhraseItem :=
  match v.asObject with
  | none => none
  | some o =>
    match jsonLookup o "Confidence", jsonLookup o "Lexical",
          jsonLookup o "ITN", jsonLookup o "MaskedITN",
          jsonLookup o "Display" with
    | some (.num c), some (.str l), some (.str i), some (.str m),
      some (.str d) => some ⟨c, l, i, m, d⟩
    | _, _, _, _, _ => none

/-- serde deserialization of `DetailedPhrase` (NBest is a JSON array whose
every element must deserialize). -/
def DetailedPhrase.fromJson (v : Json) : Option DetailedPhrase :=
  match v.asObject with
  | none => none
  | some o =>
    match jsonLookup o "RecognitionStatus", jsonLookup o "Offset",
          jsonLookup o "Duration", jsonLookup o "NBest" with
    | some (.str rs), some (.num off), some (.num dur), some (.arr xs) =>
      match xs.mapM DetailedPhraseItem.fromJson with
      | some items => some ⟨rs, off, dur, items⟩
      | none => none
    | _, _, _, _ => none

/-- serde deserialization of `SilencePhrase`. -/
def SilencePhrase.fromJson (v : Json) : Option SilencePhrase :=
  match v.asObject with
  | none => none
  | some o =>
    match jsonLookup o "RecognitionStatus", jsonLookup o "Offset",
          jsonLookup o "Duration" with
    | some (.str rs), some (.num off), some (.num dur) =>
        some ⟨rs, off, dur⟩
    | _, _, _ => none

/-- serde deserialization of `Hypothesis` (Text/Offset/Duration). -/
def Hypothesis.fromJson (v : Json) : Option Hypothesis :=
  match v.asObject with
  | none => none
  | some o =>
    match jsonLookup o "Text", jsonLookup o "Offset",
          jsonLookup o "Duration" with
    | some (.str t), some (.num off), some (.num dur) =>
        some ⟨t, off, dur⟩
    | _, _, _ => none

/-- `Phrase::from_json_value` (src/speech/mod.rs lines 486-503).
Outer `Option`: `none` models a Rust panic (`object["RecognitionStatus"]`
panics when the key is absent, `.as_str().unwrap()` panics when the value is
not a string). Inner `Except Unit Phrase`: `.error ()` models the
`SerializationError` propagated by `?` when `serde_json::from_value` fails. -/
def fromJsonValue (v : Json) : Option (Except Unit Phrase) :=
  match v.asObject with
  | some o =>
    match jsonLookup o "RecognitionStatus" with
    | none => none
    | some rv =>
      match rv.asStr with
      | none => none
      | some status =>
        if status = "Success" then
          if jsonContainsKey o "DisplayText" then
            match SimplePhrase.fromJson v with
            | some sp => some (.ok (.Simple sp))
            | none => some (.error ())
          else
            match DetailedPhrase.fromJson v with
            | some dp => some (.ok (.Detailed dp))
            | none => some (.error ())
        else if status = "InitialSilenceTimeout" then
          match SilencePhrase.fromJson v with
          | some sp => some (.ok (.Silence sp))
          | none => some (.error ())
        else
          some (.ok .Unknown)
  | none => some (.ok .Unknown)

/-- The HTTP `recognize` response-body handler (src/speech/mod.rs lines
388-396) discriminates a decoded body with the same `Phrase::from_json_value`
function as the streaming path. -/
def httpRecognizePhrase (v : Json) : Option (Except Unit Phrase) :=
  fromJsonValue v

/-- `ServerEvent` (src/speech/websocket.rs lines 16-26); the `ws::Sender`
payload of `Connect` is abstracted away. -/
inductive ServerEvent where
  | Connect
  | Disconnect
  | TurnStart
  | SpeechStartDetected
  | SpeechHypothesis (h : Hypothesis)
  | SpeechEndDetected
  | SpeechPhrase (p : Phrase)
  | TurnEnd
  | Unknown
deriving DecidableEq, Repr

/-- Worker for `charsSplitOn`: scan left to right; at each position where
the separator is a prefix, close the current section and skip the
separator. Fuel bounds the number of scan steps so the recursion is
structural (the fuel passed by `charsSplitOn` never runs out). -/
def splitOnListAux (sep : List Char) : Nat → List Char → List Char → List (List Char)
  | 0, s, acc => [acc.reverse ++ s]
  | fuel + 1, s, acc =>
    if sep.isPrefixOf s then
      acc.reverse :: splitOnListAux sep fuel (s.drop sep.length) []
    else
      match s with
      | [] => [acc.reverse]
      | c :: rest => splitOnListAux sep fuel rest (c :: acc)

/-- `str::split` on a non-empty separator (same semantics as Rust
`split`): the sections between the non-overlapping occurrences of `sep`,
scanning left to right; always at least one section. -/
def charsSplitOn (sep : List Char) (s : List Char) : List (List Char) :=
  splitOnListAux sep (s.length + 1) s []

/-- `str::trim`: drop leading and trailing whitespace. -/
def trimChars (s : List Char) : List Char :=
  ((s.dropWhile Char.isWhitespace).reverse.dropWhile Char.isWhitespace).reverse

/-- A `ws::Message`: text or binary. Text payloads are modelled as their
character lists. -/
inductive WsMessage where
  | text (s : List Char)
  | binary (b : List Nat)

/-- The `match value` on the `Path` header value inside
`MyHandler::parse_server_message_text` (src/speech/websocket.rs lines
274-288). `jp` is the abstract serde_json string parser. For
`speech.hypothesis` the body is deserialized with `.unwrap()` (panic on
failure, modelled as `none`); for `speech.phrase` the body is parsed and
discriminated, and both a parse failure and a `Phrase::from_json_value`
error are `.unwrap()`ed (panic). -/
def pathToEvent (jp : List Char → Option Json) (body : List Char)
    (value : List Char) : Option ServerEvent :=
  if value = "turn.start".data then some .TurnStart
  else if value = "turn.end".data then some .TurnEnd
  else if value = "speech.startDetected".data then some .SpeechStartDetected
  else if value = "speech.hypothesis".data then
    match jp body with
    | none => none
    | some j =>
      match Hypothesis.fromJson j with
      | none => none
      | some h => some (.SpeechHypothesis h)
  else if value = "speech.phrase".data then
    match jp body with
    | none => none
    | some j =>
      match fromJsonValue j with
      | none => none
      | some (.error _) => none
      | some (.ok p) => some (.SpeechPhrase p)
  else if value = "speech.endDetected".data then some .SpeechEndDetected
  else some .Unknown

/-- One iteration of the header-line loop in
`MyHandler::parse_server_message_text` (lines 269-299): split the line on
`:`; indexing `kv[1]` panics when the line has no colon; a `Path` line
produces one event, any other line produces none. -/
def lineEvents (jp : List Char → Option Json) (body : List Char)
    (line : List Char) : Option (List ServerEvent) :=
  match charsSplitOn [':'] line with
  | k :: v :: _ =>
    if trimChars k = "Path".data then
      match pathToEvent jp body (trimChars v) with
      | none => none
      | some e => some [e]
    else some []
  | _ => none

/-- The full header-line loop: events of all `Path` lines in order; a panic
in any iteration aborts the whole parse. -/
def dispatchLines (jp : List Char → Option Json) (body : List Char) :
    List (List Char) → Option (List ServerEvent)
  | [] => some []
  | line :: rest =>
    match lineEvents jp body line with
    | none => none
    | some es =>
      match dispatchLines jp body rest with
      | none => none
      | some es2 => some (es ++ es2)

/-- `MyHandler::parse_server_message_text` (src/speech/websocket.rs lines
261-303): split the frame on the first `\r\n\r\n` into header and body
(indexing `sections[1]` panics when there is no separator), then run the
header-line loop. -/
def parseServerMessageText (jp : List Char → Option Json) (t : List Char) :
    Option (List ServerEvent) :=
  match charsSplitOn "\r\n\r\n".data t with
  | header :: body :: _ =>
      dispatchLines jp body (charsSplitOn "\r\n".data header)
  | _ => none

/-- `MyHandler::parse_server_message` (src/speech/websocket.rs lines
252-259): only text frames are interpreted; binary (and other) frames are
logged (`warn`) and produce no event. -/
def parseServerMessage (jp : List Char → Option Json) :
    WsMessage → Option (List ServerEvent)
  | .text s => parseServerMessageText jp s
  | .binary _ => some []

/-- The UTF-8 encoding of one character, as naturals. -/
def utf8Bytes (c : Char) : List Nat :=
  let n := c.toNat
  if n < 128 then [n]
  else if n < 2048 then
    [192 ||| (n >>> 6), 128 ||| (n &&& 63)]
  else if n < 65536 then
    [224 ||| (n >>> 12), 128 ||| ((n >>> 6) &&& 63), 128 ||| (n &&& 63)]
  else
    [240 ||| (n >>> 18), 128 ||| ((n >>> 12) &&& 63),
      128 ||| ((n >>> 6) &&& 63), 128 ||| (n &&& 63)]

/-- UTF-8 bytes of a string, as naturals (`str::as_bytes` /
`String::into_bytes`). -/
def headerBytes (s : String) : List Nat :=
  (s.data.map utf8Bytes).flatten

/-- The audio frame header text built in `Websocket::audio` (lines 223-226):
`format!` with path `audio`, the correlation id, the timestamp and content
type `audio/x-wav`, ending in the blank-line separator. -/
def audioHeaderText (uuid now : String) : String :=
  "Path: audio\r\nX-RequestId: " ++ uuid ++ "\r\nX-Timestamp: " ++ now ++
    "\r\nContent-Type: audio/x-wav\r\n\r\n"

/-- The binary audio frame layout built in `Websocket::audio` (lines
221-236): `text.len() as u16` truncates the byte length mod 2^16; the two
prefix bytes are `(len >> 8) & 0xFF` and `len & 0xFF` (big endian), written
here as `/ 256 % 256` and `% 256`; then the header bytes, then the raw
audio payload. -/
def encodeAudioFrame (headerText : String) (audio : List Nat) : List Nat :=
  let n := (headerBytes headerText).length % 65536
  (n / 256 % 256) :: (n % 256) :: (headerBytes headerText ++ audio)

/-- The lazy correlation-id logic in `Websocket::audio` (lines 212-219):
reuse the stored id when present, otherwise mint `fresh` and store it. -/
def mintUuid (fresh : String) : Option String → String × Option String
  | some u => (u, some u)
  | none => (fresh, some fresh)

/-- The mutable state of a `Websocket` that `audio`/`close` touch: whether a
`ws::Sender` is stored, and the stored correlation id. -/
structure WsState where
  senderConnected : Bool
  audioUuid : Option String
deriving DecidableEq, Repr

/-- `Websocket::audio` (src/speech/websocket.rs lines 209-242). When no
sender is stored the function falls through to `Ok(())` without sending
anything; when a sender is stored it mints/reuses the correlation id,
encodes one binary frame and returns the transport send result
(`sendRes`). Result: (returned `ws::Result`, new state, frames sent). -/
def wsAudio (fresh now : String) (sendRes : Except Unit Unit)
    (audio : List Nat) (st : WsState) :
    Except Unit Unit × WsState × List (List Nat) :=
  if st.senderConnected then
    let m := mintUuid fresh st.audioUuid
    (sendRes, { st with audioUuid := m.2 },
      [encodeAudioFrame (audioHeaderText m.1 now) audio])
  else
    (.ok (), st, [])

/-- `Websocket::close` (src/speech/websocket.rs lines 96-125): when a sender
is stored, `shutdown()` is called (one shutdown signal) and on success the
sender is cleared; when no sender is stored nothing is sent and the state is
untouched. Result: (new sender state, number of shutdown signals sent). -/
def wsClose (shutdownOk : Bool) : Option Unit → Option Unit × Nat
  | some h => (if shutdownOk then none else some h, 1)
  | none => (none, 0)

/-- The client-side operations relevant to the correlation-id lifecycle:
a `send_audio` call, or the observation of a `TurnEnd` server event (which
makes the thread spawned in `Websocket::run`, lines 141-150, clear the
stored id). -/
inductive ClientOp where
  | sendAudio
  | turnEnd
deriving DecidableEq, Repr

/-- Sequential model of the correlation-id lifecycle on an open connection:
`supply k` is the `k`-th freshly generated uuid; `sendAudio` reuses or mints
per `mintUuid`; `turnEnd` clears the stored id. Returns the `X-RequestId`
carried by each audio frame in order, the next fresh index, and the final
stored id. -/
def runAudio (supply : Nat → String) :
    Nat → Option String → List ClientOp → List String × Nat × Option String
  | k, st, [] => ([], k, st)
  | k, st, .sendAudio :: ops =>
    let m := mintUuid (supply k) st
    let k2 := if st.isSome then k else k + 1
    let r := runAudio supply k2 m.2 ops
    (m.1 :: r.1, r.2)
  | k, _, .turnEnd :: ops => runAudio supply k none ops

/-- `InteractiveDictationLanguage` (src/speech/mod.rs lines 506-536). -/
inductive InteractiveDictationLanguage where
  | ArabicEgypt | CatalanSpain | DanishDenmark | GermanGermany
  | EnglishAustralia | EnglishCanada | EnglishUnitedKingdom | EnglishIndia
  | EnglishNewZealand | EnglishUnitedStates | SpanishSpain | SpanishMexico
  | FinnishFinland | FrenchCanada | FrenchFrance | HindiIndia
  | ItalianItaly | JapaneseJapan | KoreanKorea | NorwegianNorway
  | DutchNetherlands | PolishPoland | PortugueseBrazil | PortuguesePortugal
  | RussianRussia | SwedishSweden | ChineseChina | ChineseHongKong
  | ChineseTaiwan
deriving DecidableEq, Repr

/-- `Display for InteractiveDictationLanguage` (src/speech/mod.rs lines
585-620). -/
def InteractiveDictationLanguage.locale :
    InteractiveDictationLanguage → String
  | .ArabicEgypt => "ar-EG"
  | .CatalanSpain => "ca-ES"
  | .DanishDenmark => "da-DK"
  | .GermanGermany => "de-DE"
  | .EnglishAustralia => "en-AU"
  | .EnglishCanada => "en-CA"
  | .EnglishUnitedKingdom => "en-GB"
  | .EnglishIndia => "en-IN"
  | .EnglishNewZealand => "en-NZ"
  | .EnglishUnitedStates => "en-US"
  | .SpanishSpain => "es-ES"
  | .SpanishMexico => "es-MX"
  | .FinnishFinland => "fi-FI"
  | .FrenchCanada => "fr-CA"
  | .FrenchFrance => "fr-FR"
  | .HindiIndia => "hi-IN"
  | .ItalianItaly => "it-IT"
  | .JapaneseJapan => "ja-JP"
  | .KoreanKorea => "ko-KR"
  | .NorwegianNorway => "nb-NO"
  | .DutchNetherlands => "nl-NL"
  | .PolishPoland => "pl-PL"
  | .PortugueseBrazil => "pt-BR"
  | .PortuguesePortugal => "pt-PT"
  | .RussianRussia => "ru-RU"
  | .SwedishSweden => "sv-SE"
  | .ChineseChina => "zh-CN"
  | .ChineseHongKong => "zh-HK"
  | .ChineseTaiwan => "zh-TW"

/-- `ConversationLanguage` (src/speech/mod.rs lines 539-550). -/
inductive ConversationLanguage where
  | ArabicEgypt | GermanGermany | EnglishUnitedStates | SpanishSpain
  | FrenchFrance | ItalianItaly | JapaneseJapan | PortugueseBrazil
  | RussianRussia | ChineseChina
deriving DecidableEq, Repr

/-- `Display for ConversationLanguage` (src/speech/mod.rs lines 622-638). -/
def ConversationLanguage.locale : ConversationLanguage → String
  | .ArabicEgypt => "ar-EG"
  | .GermanGermany => "de-DE"
  | .EnglishUnitedStates => "en-US"
  | .SpanishSpain => "es-ES"
  | .FrenchFrance => "fr-FR"
  | .ItalianItaly => "it-IT"
  | .JapaneseJapan => "ja-JP"
  | .PortugueseBrazil => "pt-BR"
  | .RussianRussia => "ru-RU"
  | .ChineseChina => "zh-CN"

/-- `Mode` (src/speech/mod.rs lines 553-557). -/
inductive Mode where
  | Interactive (l : InteractiveDictationLanguage)
  | Conversation (l : ConversationLanguage)
  | Dictation (l : InteractiveDictationLanguage)
deriving DecidableEq, Repr

/-- `Display for Mode` (src/speech/mod.rs lines 566-574). -/
def Mode.modeString : Mode → String
  | .Interactive _ => "interactive"
  | .Conversation _ => "conversation"
  | .Dictation _ => "dictation"

/-- The `language` match at the top of `Websocket::build_url` (lines
162-165): render the language carried by the mode. -/
def Mode.language : Mode → String
  | .Interactive l => l.locale
  | .Dictation l => l.locale
  | .Conversation l => l.locale

/-- `Format` (src/speech/mod.rs lines 561-564). -/
inductive Format where
  | Simple
  | Detailed
deriving DecidableEq, Repr

/-- `Display for Format` (src/speech/mod.rs lines 576-583). -/
def Format.formatString : Format → String
  | .Simple => "simple"
  | .Detailed => "detailed"

/-- `Websocket::build_url` (src/speech/websocket.rs lines 161-184): the two
`format!` templates, chosen on the custom-speech flag. -/
def build_url (mode : Mode) (format : Format) (is_custom_speech : Bool)
    (endpoint_id : String) : String :=
  if is_custom_speech then
    "wss://westus.stt.speech.microsoft.com/speech/recognition/" ++
      mode.modeString ++ "/cognitiveservices/v1?cid=" ++ endpoint_id ++
      "&language=" ++ mode.language ++ "&format=" ++ format.formatString
  else
    "wss://speech.platform.bing.com/speech/recognition/" ++
      mode.modeString ++ "/cognitiveservices/v1?language=" ++
      mode.language ++ "&format=" ++ format.formatString

/-- The connection URL as the wire URL template of the spec describes it (§6):
`wss://{host}/speech/recognition/{mode}/cognitiveservices/v1` with query
`[cid={endpoint_id}&]language={locale}&format={format}`, the host being the
dedicated regional host when the custom-speech flag is set and the fixed
production host otherwise. Written from the words of the spec, to be compared
with `build_url`. -/
def specTemplateUrl (mode : Mode) (format : Format)
    (is_custom_speech : Bool) (endpoint_id : String) : String :=
  "wss://" ++
    (if is_custom_speech then "westus.stt.speech.microsoft.com"
     else "speech.platform.bing.com") ++
    "/speech/recognition/" ++ mode.modeString ++ "/cognitiveservices/v1?" ++
    (if is_custom_speech then "cid=" ++ endpoint_id ++ "&" else "") ++
    "language=" ++ mode.language ++ "&format=" ++ format.formatString

/-- The events one inbound frame contributes to the consumer path: both the
`server_event_from_handler_tx` channel and the `server_event_tx` channel
receive, inside `parse_server_message_text` (lines 290-298), exactly the
events of the frame in header-line order. A frame whose parse panics kills
the transport thread and contributes nothing. -/
def frameEvents (jp : List Char → Option Json) (m : WsMessage) :
    List ServerEvent :=
  (parseServerMessage jp m).getD []

/-- State of a single-producer / single-consumer pipeline over one mpsc
channel, as used for both directions of a connection (src/speech/mod.rs
lines 122-215): `pending` inputs not yet processed by the producer (in
arrival order), `queue` the channel contents (FIFO, the mpsc contract),
`delivered` what the single consumer has taken off so far. -/
structure PipeState (α β : Type) where
  pending : List α
  queue : List β
  delivered : List β
deriving DecidableEq, Repr

/-- One scheduler step of the pipeline: either the producer decodes the
next input and enqueues its outputs, or the consumer dequeues the head
event and delivers it. The two workers interleave arbitrarily. -/
inductive PipeStep {α β : Type} (decode : α → List β) :
    PipeState α β → PipeState α β → Prop
  | produce (a : α) (rest : List α) (q d : List β) :
      PipeStep decode ⟨a :: rest, q, d⟩ ⟨rest, q ++ decode a, d⟩
  | consume (p : List α) (e : β) (q d : List β) :
      PipeStep decode ⟨p, e :: q, d⟩ ⟨p, q, d ++ [e]⟩

/-- Reachability under arbitrary interleaving of the two workers. -/
def PipeReach {α β : Type} (decode : α → List β) :
    PipeState α β → PipeState α β → Prop :=
  Relation.ReflTransGen (PipeStep decode)

/-- The outbound dispatcher (thread `t1`, src/speech/mod.rs lines 151-168)
frames each dequeued audio chunk into exactly one outbound frame. -/
def outboundDecode (a : List Nat) : List (List Nat) := [a]

/-- Merging two adjacent literal appends inside a chain (plain
reassociation; used to align differently segmented URL literals). -/
theorem mergeLit (x a b : String) : x ++ a ++ b = x ++ (a ++ b) :=
  String.append_assoc x a b

/-- Appending the empty string on the right is the identity. -/
theorem append_empty_right (x : String) : x ++ "" = x := by
  apply String.ext
  simp

/-- C2: for every audio payload and correlation id (and timestamp), the
encoded binary audio frame is the 2-byte big-endian header byte length,
then the header bytes, then the raw payload with no delimiter; decoding the
2-byte length recovers the header byte length exactly, and the bytes after
the header are the payload in order. -/
theorem audio_frame_encoding (uuid now : String) (audio : List Nat)
    (h : (headerBytes (audioHeaderText uuid now)).length < 65536) :
    ∃ s1 s2,
      encodeAudioFrame (audioHeaderText uuid now) audio
        = s1 :: s2 :: (headerBytes (audioHeaderText uuid now) ++ audio) ∧
      256 * s1 + s2 = (headerBytes (audioHeaderText uuid now)).length ∧
      ((encodeAudioFrame (audioHeaderText uuid now) audio).drop 2).take
          (headerBytes (audioHeaderText uuid now)).length
        = headerBytes (audioHeaderText uuid now) ∧
      (encodeAudioFrame (audioHeaderText uuid now) audio).drop
          (2 + (headerBytes (audioHeaderText uuid now)).length) = audio := by
  set hb := headerBytes (audioHeaderText uuid now) with hhb
  have hmod : hb.length % 65536 = hb.length := Nat.mod_eq_of_lt h
  have hdiv : hb.length / 256 < 256 := by omega
  refine ⟨hb.length / 256 % 256, hb.length % 256, ?_, ?_, ?_, ?_⟩
  · simp [encodeAudioFrame, hmod, ← hhb]
  · rw [Nat.mod_eq_of_lt hdiv]
    exact Nat.div_add_mod hb.length 256
  · simp [encodeAudioFrame, hmod, ← hhb]
  · simp [encodeAudioFrame, hmod, ← hhb]
    rw [show 2 + hb.length = hb.length + 2 by omega]
    simp [List.drop_append]

/-- C2 witness: a concrete correlation id, timestamp and payload. -/
theorem audio_frame_encoding_witness :
    (headerBytes (audioHeaderText "u" "t")).length < 65536 ∧
    (∃ s1 s2,
      encodeAudioFrame (audioHeaderText "u" "t") [7, 8, 9]
        = s1 :: s2 :: (headerBytes (audioHeaderText "u" "t") ++ [7, 8, 9]) ∧
      256 * s1 + s2 = (headerBytes (audioHeaderText "u" "t")).length ∧
      ((encodeAudioFrame (audioHeaderText "u" "t") [7, 8, 9]).drop 2).take
          (headerBytes (audioHeaderText "u" "t")).length
        = headerBytes (audioHeaderText "u" "t") ∧
      (encodeAudioFrame (audioHeaderText "u" "t") [7, 8, 9]).drop
          (2 + (headerBytes (audioHeaderText "u" "t")).length) = [7, 8, 9]) :=
  ⟨by decide, audio_frame_encoding "u" "t" [7, 8, 9] (by decide)⟩

/-- C10: every JSON value that is not an object is classified as
Ok(Unknown) by Phrase::from_json_value, not as an error. -/
theorem nonobject_phrase_unknown (v : Json) (h : v.asObject = none) :
    fromJsonValue v = some (.ok .Unknown) := by
  cases v <;> simp_all [fromJsonValue, Json.asObject]

/-- C10 witness: a JSON string body. -/
theorem nonobject_phrase_unknown_witness :
    Json.asObject (.str "x") = none ∧
    fromJsonValue (.str "x") = some (.ok .Unknown) :=
  ⟨rfl, nonobject_phrase_unknown (.str "x") rfl⟩

/-- C5 counterexample: calling Websocket::audio while no sender is stored
(not Open) does not fail: it returns Ok(()) and sends no frame, so the
claim that it fails with a NotConnectedError is false at this input. -/
theorem send_audio_not_connected_cex :
    (wsAudio "u" "t" (.ok ()) [1] ⟨false, none⟩).1 = .ok () ∧
    (wsAudio "u" "t" (.ok ()) [1] ⟨false, none⟩).1 ≠ .error () ∧
    (wsAudio "u" "t" (.ok ()) [1] ⟨false, none⟩).2.2 = [] := by
  refine ⟨rfl, ?_, rfl⟩
  simp [wsAudio]

/-- C5 amended: while not Open, Websocket::audio is a silent no-op that
returns Ok(()) and produces no frame; while Open, each call produces
exactly one binary audio frame and returns the transport send result. -/
theorem send_audio_state (fresh now : String) (sendRes : Except Unit Unit)
    (audio : List Nat) (st : WsState) :
    (st.senderConnected = false →
      wsAudio fresh now sendRes audio st = (.ok (), st, [])) ∧
    (st.senderConnected = true →
      (wsAudio fresh now sendRes audio st).1 = sendRes ∧
      (wsAudio fresh now sendRes audio st).2.2.length = 1) := by
  constructor
  · intro h
    simp [wsAudio, h]
  · intro h
    simp [wsAudio, h]

/-- C5 witness: one disconnected call and one connected call. -/
theorem send_audio_state_witness :
    ((⟨false, none⟩ : WsState).senderConnected = false ∧
      wsAudio "u" "t" (.ok ()) [1] ⟨false, none⟩ = (.ok (), ⟨false, none⟩, [])) ∧
    ((⟨true, none⟩ : WsState).senderConnected = true ∧
      (wsAudio "u" "t" (.ok ()) [1] ⟨true, none⟩).1 = .ok () ∧
      (wsAudio "u" "t" (.ok ()) [1] ⟨true, none⟩).2.2.length = 1) :=
  ⟨⟨rfl, (send_audio_state "u" "t" (.ok ()) [1] ⟨false, none⟩).1 rfl⟩,
   ⟨rfl, (send_audio_state "u" "t" (.ok ()) [1] ⟨true, none⟩).2 rfl⟩⟩

/-- C7: Websocket::close is idempotent: closing while already disconnected
(no sender stored) sends no shutdown signal and leaves the state unchanged,
and a second close after a successful close sends no further shutdown
signal (hence no duplicate Disconnect event) and leaves the cleared state
unchanged. -/
theorem disconnect_idempotent (b b2 : Bool) (s : Option Unit) :
    wsClose b none = (none, 0) ∧
    (wsClose true s).1 = none ∧
    wsClose b2 (wsClose true s).1 = (none, 0) := by
  cases s <;> simp [wsClose]

/-- While an id is stored, a run of send_audio calls reuses it verbatim and
neither consumes fresh ids nor changes the stored id. -/
theorem runAudio_replicate_some (supply : Nat → String) (k : Nat)
    (u : String) (j : Nat) (ops : List ClientOp) :
    runAudio supply k (some u) (List.replicate j .sendAudio ++ ops)
      = (List.replicate j u ++ (runAudio supply k (some u) ops).1,
         (runAudio supply k (some u) ops).2) := by
  induction j with
  | zero => simp
  | succ j ih => simp [List.replicate_succ, runAudio, mintUuid, ih]

/-- A run of send_audio calls starting with no stored id mints the next
fresh id on the first call and reuses it for the rest of the run. -/
theorem runAudio_replicate_none (supply : Nat → String) (k j : Nat)
    (ops : List ClientOp) (hj : 0 < j) :
    runAudio supply k none (List.replicate j .sendAudio ++ ops)
      = (List.replicate j (supply k) ++
          (runAudio supply (k + 1) (some (supply k)) ops).1,
         (runAudio supply (k + 1) (some (supply k)) ops).2) := by
  obtain ⟨j, rfl⟩ : ∃ i, j = i + 1 := ⟨j - 1, by omega⟩
  rw [List.replicate_succ, List.cons_append]
  have h := runAudio_replicate_some supply (k + 1) (supply k) j ops
  simp [runAudio, mintUuid, h, List.replicate_succ]

/-- C1: on an open connection, all audio frames sent before any TurnEnd
carry the same correlation id (minted lazily on the first send), and the
first send after a TurnEnd carries a fresh id, different from the previous
one whenever the generator does not collide. -/
theorem correlation_id_invariant (supply : Nat → String) (n m : Nat)
    (hn : 0 < n) (hm : 0 < m) (hfresh : supply 0 ≠ supply 1) :
    (runAudio supply 0 none (List.replicate n .sendAudio)).1
      = List.replicate n (supply 0) ∧
    (runAudio supply 0 none
        (List.replicate n .sendAudio ++ .turnEnd ::
          List.replicate m .sendAudio)).1
      = List.replicate n (supply 0) ++ List.replicate m (supply 1) ∧
    supply 0 ≠ supply 1 := by
  refine ⟨?_, ?_, hfresh⟩
  · have h := runAudio_replicate_none supply 0 n [] hn
    rw [List.append_nil] at h
    simp [h, runAudio]
  · have h := runAudio_replicate_none supply 0 n
      (.turnEnd :: List.replicate m .sendAudio) hn
    have h2 := runAudio_replicate_none supply 1 m [] hm
    rw [List.append_nil] at h2
    simp [h, runAudio, h2]

/-- C1 witness: two sends, a TurnEnd, then one more send, with a
non-colliding two-id generator. -/
theorem correlation_id_invariant_witness :
    ((0 : Nat) < 2 ∧ (0 : Nat) < 1 ∧
      (fun k : Nat => if k = 0 then "a" else "b") 0 ≠
        (fun k : Nat => if k = 0 then "a" else "b") 1) ∧
    ((runAudio (fun k : Nat => if k = 0 then "a" else "b") 0 none
        (List.replicate 2 .sendAudio)).1
      = List.replicate 2 "a" ∧
    (runAudio (fun k : Nat => if k = 0 then "a" else "b") 0 none
        (List.replicate 2 .sendAudio ++ .turnEnd ::
          List.replicate 1 .sendAudio)).1
      = List.replicate 2 "a" ++ List.replicate 1 "b" ∧
    (fun k : Nat => if k = 0 then "a" else "b") 0 ≠
      (fun k : Nat => if k = 0 then "a" else "b") 1) :=
  ⟨⟨by decide, by decide, by decide⟩,
   correlation_id_invariant (fun k => if k = 0 then "a" else "b") 2 1
     (by decide) (by decide) (by decide)⟩

/-- C8: the connection URL built by Websocket::build_url is exactly the
wire URL template of the spec: wss, host chosen by the custom-speech flag
(dedicated regional host when set, fixed production host otherwise), the
recognition path with the rendered mode, and the query with cid present
exactly when the flag is set, then language and format; the mode renders to
one of interactive/conversation/dictation and the format to one of
simple/detailed. -/
theorem url_construction (mode : Mode) (format : Format)
    (is_custom_speech : Bool) (endpoint_id : String) :
    build_url mode format is_custom_speech endpoint_id
      = specTemplateUrl mode format is_custom_speech endpoint_id ∧
    (mode.modeString = "interactive" ∨ mode.modeString = "conversation" ∨
      mode.modeString = "dictation") ∧
    (format.formatString = "simple" ∨ format.formatString = "detailed") := by
  refine ⟨?_, ?_, ?_⟩
  · have h1 : ∀ x : String, x ++ "/cognitiveservices/v1?" ++ "cid=" =
        x ++ "/cognitiveservices/v1?cid=" := fun x => mergeLit ..
    have h2 : ∀ x : String, x ++ "&" ++ "language=" = x ++ "&language=" :=
      fun x => mergeLit ..
    have h3 : ∀ x : String, x ++ "/cognitiveservices/v1?" ++ "language=" =
        x ++ "/cognitiveservices/v1?language=" := fun x => mergeLit ..
    cases is_custom_speech with
    | true =>
      simp only [build_url, specTemplateUrl, if_true]
      simp [← String.append_assoc, h1, h2]
    | false =>
      simp only [build_url, specTemplateUrl, if_false]
      simp [← String.append_assoc, append_empty_right, h3]
  · cases mode <;> simp [Mode.modeString]
  · cases format <;> simp [Format.formatString]

/-- C3: for a decoded JSON object whose RecognitionStatus field is the
string s, Phrase::from_json_value returns Simple when s is Success and the
object deserializes as a simple phrase (which requires DisplayText),
Detailed when s is Success without DisplayText (empty NBest included),
Silence when s is InitialSilenceTimeout, and Unknown for any other status;
and the streamed speech.phrase path and the HTTP recognize path
discriminate with this same function. -/
theorem phrase_discrimination (o : List (String × Json)) (s : String)
    (hs : jsonLookup o "RecognitionStatus" = some (.str s)) :
    (∀ sp, s = "Success" → SimplePhrase.fromJson (.obj o) = some sp →
        fromJsonValue (.obj o) = some (.ok (.Simple sp))) ∧
    (∀ dp, s = "Success" → jsonContainsKey o "DisplayText" = false →
        DetailedPhrase.fromJson (.obj o) = some dp →
        fromJsonValue (.obj o) = some (.ok (.Detailed dp))) ∧
    (∀ sp, s = "InitialSilenceTimeout" →
        SilencePhrase.fromJson (.obj o) = some sp →
        fromJsonValue (.obj o) = some (.ok (.Silence sp))) ∧
    (s ≠ "Success" → s ≠ "InitialSilenceTimeout" →
        fromJsonValue (.obj o) = some (.ok .Unknown)) ∧
    (∀ jp body j p, jp body = some j → fromJsonValue j = some (.ok p) →
        pathToEvent jp body "speech.phrase".data = some (.SpeechPhrase p)) ∧
    (∀ v, httpRecognizePhrase v = fromJsonValue v) := by
  refine ⟨?_, ?_, ?_, ?_, ?_, fun v => rfl⟩
  · intro sp h hsp
    subst h
    cases hdt : jsonLookup o "DisplayText" with
    | none =>
      simp [SimplePhrase.fromJson, Json.asObject, hs, hdt] at hsp
    | some dv =>
      simp [fromJsonValue, Json.asObject, hs, Json.asStr, jsonContainsKey,
        hdt, hsp]
  · intro dp h hnk hdp
    subst h
    simp [fromJsonValue, Json.asObject, hs, Json.asStr, hnk, hdp]
  · intro sp h hsp
    subst h
    simp [fromJsonValue, Json.asObject, hs, Json.asStr, hsp]
  · intro h1 h2
    simp [fromJsonValue, Json.asObject, hs, Json.asStr, h1, h2]
  · intro jp body j p hjp hp
    simp only [pathToEvent]
    rw [if_neg (by decide), if_neg (by decide), if_neg (by decide),
      if_neg (by decide)]
    simp only [if_true]
    rw [hjp]
    show (match fromJsonValue j with
      | none => none
      | some (.error _) => none
      | some (.ok p) => some (ServerEvent.SpeechPhrase p))
        = some (.SpeechPhrase p)
    rw [hp]

/-- C3 witness: the four example bodies of the spec, pushed through the
discriminator. -/
theorem phrase_discrimination_witness :
    (jsonLookup [("RecognitionStatus", Json.str "Success"),
        ("DisplayText", Json.str "hi"), ("Offset", Json.num 0),
        ("Duration", Json.num 1)] "RecognitionStatus"
      = some (.str "Success") ∧
     fromJsonValue (.obj [("RecognitionStatus", Json.str "Success"),
        ("DisplayText", Json.str "hi"), ("Offset", Json.num 0),
        ("Duration", Json.num 1)])
      = some (.ok (.Simple ⟨"Success", "hi", 0, 1⟩))) ∧
    fromJsonValue (.obj [("RecognitionStatus", Json.str "Success"),
        ("Offset", Json.num 0), ("Duration", Json.num 1),
        ("NBest", Json.arr [])])
      = some (.ok (.Detailed ⟨"Success", 0, 1, []⟩)) ∧
    fromJsonValue (.obj [("RecognitionStatus",
        Json.str "InitialSilenceTimeout"), ("Offset", Json.num 0),
        ("Duration", Json.num 1)])
      = some (.ok (.Silence ⟨"InitialSilenceTimeout", 0, 1⟩)) ∧
    fromJsonValue (.obj [("RecognitionStatus", Json.str "Error")])
      = some (.ok .Unknown) :=
  ⟨⟨rfl,
    (phrase_discrimination [("RecognitionStatus", Json.str "Success"),
        ("DisplayText", Json.str "hi"), ("Offset", Json.num 0),
        ("Duration", Json.num 1)] "Success" rfl).1
      ⟨"Success", "hi", 0, 1⟩ rfl rfl⟩,
   (phrase_discrimination [("RecognitionStatus", Json.str "Success"),
        ("Offset", Json.num 0), ("Duration", Json.num 1),
        ("NBest", Json.arr [])] "Success" rfl).2.1
      ⟨"Success", 0, 1, []⟩ rfl rfl rfl,
   (phrase_discrimination [("RecognitionStatus",
        Json.str "InitialSilenceTimeout"), ("Offset", Json.num 0),
        ("Duration", Json.num 1)] "InitialSilenceTimeout" rfl).2.2.1
      ⟨"InitialSilenceTimeout", 0, 1⟩ rfl rfl,
   (phrase_discrimination [("RecognitionStatus", Json.str "Error")]
        "Error" rfl).2.2.2.1 (by decide) (by decide)⟩

/-- C6: the decoder maps the Path header value turn.start to TurnStart,
turn.end to TurnEnd, speech.startDetected / speech.endDetected to the
detection events, speech.hypothesis to SpeechHypothesis with the parsed
body, speech.phrase to SpeechPhrase with the discriminated body, and any
other Path value to Unknown (still forwarded, not discarded); inbound
binary frames are logged and dropped, never dispatched. -/
theorem inbound_dispatch (jp : List Char → Option Json)
    (body : List Char) :
    pathToEvent jp body "turn.start".data = some .TurnStart ∧
    pathToEvent jp body "turn.end".data = some .TurnEnd ∧
    pathToEvent jp body "speech.startDetected".data
      = some .SpeechStartDetected ∧
    pathToEvent jp body "speech.endDetected".data
      = some .SpeechEndDetected ∧
    (∀ j h, jp body = some j → Hypothesis.fromJson j = some h →
      pathToEvent jp body "speech.hypothesis".data
        = some (.SpeechHypothesis h)) ∧
    (∀ j p, jp body = some j → fromJsonValue j = some (.ok p) →
      pathToEvent jp body "speech.phrase".data = some (.SpeechPhrase p)) ∧
    (∀ v, v ≠ "turn.start".data → v ≠ "turn.end".data →
      v ≠ "speech.startDetected".data → v ≠ "speech.hypothesis".data →
      v ≠ "speech.phrase".data → v ≠ "speech.endDetected".data →
      pathToEvent jp body v = some .Unknown) ∧
    (∀ b, parseServerMessage jp (.binary b) = some []) := by
  refine ⟨rfl, rfl, rfl, rfl, ?_, ?_, ?_, fun b => rfl⟩
  · intro j h hjp hj
    simp only [pathToEvent]
    rw [if_neg (by decide), if_neg (by decide), if_neg (by decide)]
    simp only [if_true]
    rw [hjp]
    show (match Hypothesis.fromJson j with
      | none => none
      | some h => some (ServerEvent.SpeechHypothesis h))
        = some (.SpeechHypothesis h)
    rw [hj]
  · intro j p hjp hp
    simp only [pathToEvent]
    rw [if_neg (by decide), if_neg (by decide), if_neg (by decide),
      if_neg (by decide)]
    simp only [if_true]
    rw [hjp]
    show (match fromJsonValue j with
      | none => none
      | some (.error _) => none
      | some (.ok p) => some (ServerEvent.SpeechPhrase p))
        = some (.SpeechPhrase p)
    rw [hp]
  · intro v h1 h2 h3 h4 h5 h6
    simp only [pathToEvent]
    rw [if_neg h1, if_neg h2, if_neg h3, if_neg h4, if_neg h5, if_neg h6]

/-- C6 witness: a concrete hypothesis body, a concrete phrase body, and an
unroutable Path value. -/
theorem inbound_dispatch_witness :
    ((fun _ : List Char => some (Json.obj [("Text", Json.str "hel"),
        ("Offset", Json.num 0), ("Duration", Json.num 500)])) []
      = some (Json.obj [("Text", Json.str "hel"), ("Offset", Json.num 0),
        ("Duration", Json.num 500)]) ∧
     Hypothesis.fromJson (Json.obj [("Text", Json.str "hel"),
        ("Offset", Json.num 0), ("Duration", Json.num 500)])
      = some ⟨"hel", 0, 500⟩) ∧
    pathToEvent (fun _ => some (Json.obj [("Text", Json.str "hel"),
        ("Offset", Json.num 0), ("Duration", Json.num 500)])) []
        "speech.hypothesis".data
      = some (.SpeechHypothesis ⟨"hel", 0, 500⟩) ∧
    ("speech.fragment".data ≠ "turn.start".data ∧
     "speech.fragment".data ≠ "turn.end".data) ∧
    pathToEvent (fun _ => none) [] "speech.fragment".data
      = some .Unknown :=
  ⟨⟨rfl, rfl⟩,
   (inbound_dispatch (fun _ => some (Json.obj [("Text", Json.str "hel"),
        ("Offset", Json.num 0), ("Duration", Json.num 500)]))
      []).2.2.2.2.1 _ ⟨"hel", 0, 500⟩ rfl rfl,
   ⟨by decide, by decide⟩,
   (inbound_dispatch (fun _ => none) []).2.2.2.2.2.2.1
      "speech.fragment".data (by decide) (by decide) (by decide)
      (by decide) (by decide) (by decide)⟩

/-- C4: evaluation of the decoder at the three malformed inputs of the
claim. In each case the result is `none`, the model of a Rust panic: a
frame without the blank-line separator panics at `sections[1]`, a header
line without a colon panics at `kv[1]`, and a speech.phrase frame whose
body fails to parse as JSON panics at `.unwrap()`. The decoder therefore
aborts the transport thread instead of failing the frame parse locally. -/
theorem malformed_frame_panics (jp : List Char → Option Json)
    (h : jp "notjson".data = none) :
    parseServerMessageText jp "Path: turn.start".data = none ∧
    parseServerMessageText jp "NoColonHere\r\n\r\nbody".data = none ∧
    parseServerMessageText jp
      "Path: speech.phrase\r\n\r\nnotjson".data = none := by
  refine ⟨rfl, rfl, ?_⟩
  have hpe : pathToEvent jp "notjson".data
      (trimChars " speech.phrase".data) = none := by
    have ht : trimChars " speech.phrase".data = "speech.phrase".data := by
      decide
    rw [ht]
    simp only [pathToEvent]
    rw [if_neg (by decide), if_neg (by decide), if_neg (by decide),
      if_neg (by decide)]
    simp only [if_true]
    rw [h]
  have hred : parseServerMessageText jp
      "Path: speech.phrase\r\n\r\nnotjson".data
      = (match (match pathToEvent jp "notjson".data
                  (trimChars " speech.phrase".data) with
              | none => none
              | some e => some [e]) with
         | none => (none : Option (List ServerEvent))
         | some es => some (es ++ [])) := rfl
  rw [hred, hpe]

/-- C4 witness: a parser that rejects the non-JSON body. -/
theorem malformed_frame_panics_witness :
    ((fun _ : List Char => (none : Option Json)) "notjson".data = none) ∧
    (parseServerMessageText (fun _ => none) "Path: turn.start".data
        = none ∧
     parseServerMessageText (fun _ => none) "NoColonHere\r\n\r\nbody".data
        = none ∧
     parseServerMessageText (fun _ => none)
        "Path: speech.phrase\r\n\r\nnotjson".data = none) :=
  ⟨rfl, malformed_frame_panics (fun _ => none) rfl⟩

/-- Decoding each chunk to its single outbound frame and flattening gives
back the chunk sequence. -/
theorem flatten_map_outboundDecode (l : List (List Nat)) :
    (l.map outboundDecode).flatten = l := by
  induction l with
  | nil => rfl
  | cons a t ih => simp [outboundDecode, ih]

/-- FIFO preservation: any interleaving of the producer and the consumer
keeps delivered-then-queued-then-pending output equal to the total output
of the original input sequence, in order. -/
theorem pipeReach_inv {α β : Type} (decode : α → List β)
    {s0 s : PipeState α β} (h : PipeReach decode s0 s) :
    s.delivered ++ s.queue ++ (s.pending.map decode).flatten
      = s0.delivered ++ s0.queue ++ (s0.pending.map decode).flatten := by
  induction h with
  | refl => rfl
  | tail h1 step ih =>
    cases step with
    | produce a rest q d => simp_all [List.append_assoc]
    | consume p e q d => simp_all [List.append_assoc]

/-- C9: under any interleaving of the transport reader and the dispatch
worker of one connection, the events seen by the consumer are exactly the
events of the received frames in receipt order, with nothing reordered,
coalesced or dropped; and the outbound worker sends the enqueued chunks as
frames in exactly submission order. -/
theorem event_delivery_order (jp : List Char → Option Json)
    (frames : List WsMessage) (chunks : List (List Nat))
    (sIn : PipeState WsMessage ServerEvent)
    (sOut : PipeState (List Nat) (List Nat))
    (hIn : PipeReach (frameEvents jp) ⟨frames, [], []⟩ sIn)
    (hOut : PipeReach outboundDecode ⟨chunks, [], []⟩ sOut) :
    (sIn.delivered ++ sIn.queue ++ (sIn.pending.map (frameEvents jp)).flatten
      = (frames.map (frameEvents jp)).flatten) ∧
    (sIn.pending = [] → sIn.queue = [] →
      sIn.delivered = (frames.map (frameEvents jp)).flatten) ∧
    (sOut.delivered ++ sOut.queue ++ sOut.pending = chunks) ∧
    (sOut.pending = [] → sOut.queue = [] → sOut.delivered = chunks) := by
  have i1 := pipeReach_inv (frameEvents jp) hIn
  have i2 := pipeReach_inv outboundDecode hOut
  simp only [List.nil_append] at i1 i2
  rw [flatten_map_outboundDecode, flatten_map_outboundDecode] at i2
  refine ⟨i1, ?_, i2, ?_⟩
  · intro hp hq
    rw [hp, hq] at i1
    simpa using i1
  · intro hp hq
    rw [hp, hq] at i2
    simpa using i2

/-- C9 witness: one received turn.end frame flowing through the inbound
pipeline and one audio chunk through the outbound pipeline, each with an
explicit produce-then-consume schedule. -/
theorem event_delivery_order_witness :
    PipeReach (frameEvents (fun _ => none))
      ⟨[WsMessage.text "Path: turn.end\r\n\r\n".data], [], []⟩
      ⟨[], [], [ServerEvent.TurnEnd]⟩ ∧
    PipeReach outboundDecode ⟨[[5]], [], []⟩ ⟨[], [], [[5]]⟩ ∧
    ([ServerEvent.TurnEnd] : List ServerEvent)
      = (([WsMessage.text "Path: turn.end\r\n\r\n".data].map
          (frameEvents (fun _ => none))).flatten) ∧
    ([[5]] : List (List Nat)) = [[5]] := by
  have step1 : PipeStep (frameEvents (fun _ => none))
      ⟨[WsMessage.text "Path: turn.end\r\n\r\n".data], [], []⟩
      ⟨[], [ServerEvent.TurnEnd], []⟩ :=
    PipeStep.produce (WsMessage.text "Path: turn.end\r\n\r\n".data) [] [] []
  have step2 : PipeStep (frameEvents (fun _ => none))
      ⟨[], [ServerEvent.TurnEnd], []⟩ ⟨[], [], [ServerEvent.TurnEnd]⟩ :=
    PipeStep.consume [] ServerEvent.TurnEnd [] []
  have step3 : PipeStep outboundDecode ⟨[[5]], [], []⟩ ⟨[], [[5]], []⟩ :=
    PipeStep.produce [5] [] [] []
  have step4 : PipeStep outboundDecode ⟨[], [[5]], []⟩ ⟨[], [], [[5]]⟩ :=
    PipeStep.consume [] [5] [] []
  have hIn : PipeReach (frameEvents (fun _ => none))
      ⟨[WsMessage.text "Path: turn.end\r\n\r\n".data], [], []⟩
      ⟨[], [], [ServerEvent.TurnEnd]⟩ :=
    Relation.ReflTransGen.tail (Relation.ReflTransGen.single step1) step2
  have hOut : PipeReach outboundDecode ⟨[[5]], [], []⟩ ⟨[], [], [[5]]⟩ :=
    Relation.ReflTransGen.tail (Relation.ReflTransGen.single step3) step4
  exact ⟨hIn, hOut,
    (event_delivery_order (fun _ => none) _ _ _ _ hIn hOut).2.1 rfl rfl,
    (event_delivery_order (fun _ => none) _ _ _ _ hIn hOut).2.2.2 rfl rfl⟩

end BingRs
